import Mathlib

/-! Verification of the HydroPak back-office server: a shallow embedding of
`backend/src/routes/analytics.ts` (range resolver and analytics aggregator),
`backend/src/routes/orders.ts` (order creation / cancellation with stock
movements), `backend/src/routes/invoices.ts` (invoice creation and status
update) and `backend/src/services/pdf.ts` (headless-browser PDF rendering),
together with theorems settling the specified properties.

Numeric amounts (JS `number` values holding DECIMAL(12,2) data) are embedded
as exact integers `Int`; the two percentage/average fields computed with
real division are embedded as rationals `Rat`.  Calendar timestamps are
embedded at day granularity (`Int` day index) for the aggregator, and as a
day index plus time-of-day for the range resolver. -/

namespace HydroPak

/-- JS `String.prototype.trim`: strip leading and trailing whitespace.
(Defined structurally on the character list so that it computes by
kernel reduction.) -/
def jsTrim (s : String) : String :=
  String.mk (((s.data.dropWhile Char.isWhitespace).reverse.dropWhile
    Char.isWhitespace).reverse)

/-- Distinct elements of a list, in first-occurrence order: the key order
produced by a JS `Map`/plain object populated by a left-to-right loop
(`Map.prototype.values`, `Object.keys` for string keys). -/
def keysInOrder {α : Type _} [DecidableEq α] (l : List α) : List α :=
  l.foldl (fun acc k => if k ∈ acc then acc else acc ++ [k]) []

section KeysInOrder

variable {α : Type _} [DecidableEq α]

theorem keysInOrder_go_nodup (l : List α) (acc : List α) (h : acc.Nodup) :
    (l.foldl (fun acc k => if k ∈ acc then acc else acc ++ [k]) acc).Nodup := by
  induction l generalizing acc with
  | nil => simpa using h
  | cons a t ih =>
    simp only [List.foldl_cons]
    by_cases ha : a ∈ acc
    · simpa [ha] using ih acc h
    · refine ih _ ?_
      simp [ha, List.nodup_append, h]

theorem keysInOrder_go_mem_of_acc (l : List α) (acc : List α) (x : α)
    (h : x ∈ acc) :
    x ∈ l.foldl (fun acc k => if k ∈ acc then acc else acc ++ [k]) acc := by
  induction l generalizing acc with
  | nil => simpa using h
  | cons a t ih =>
    simp only [List.foldl_cons]
    by_cases ha : a ∈ acc
    · simpa [ha] using ih acc h
    · exact ih _ (by simp [ha, h])

theorem keysInOrder_go_mem (l : List α) (acc : List α) (x : α) (h : x ∈ l) :
    x ∈ l.foldl (fun acc k => if k ∈ acc then acc else acc ++ [k]) acc := by
  induction l generalizing acc with
  | nil => simp at h
  | cons a t ih =>
    simp only [List.foldl_cons]
    rcases List.mem_cons.mp h with rfl | hx
    · by_cases ha : x ∈ acc
      · simpa [ha] using keysInOrder_go_mem_of_acc t acc x ha
      · exact keysInOrder_go_mem_of_acc t _ x (by simp [ha])
    · by_cases ha : a ∈ acc
      · simpa [ha] using ih acc hx
      · exact ih _ hx

theorem keysInOrder_go_subset (l : List α) (acc : List α) (x : α)
    (h : x ∈ l.foldl (fun acc k => if k ∈ acc then acc else acc ++ [k]) acc) :
    x ∈ acc ∨ x ∈ l := by
  induction l generalizing acc with
  | nil => exact Or.inl (by simpa using h)
  | cons a t ih =>
    simp only [List.foldl_cons] at h
    by_cases ha : a ∈ acc
    · rw [if_pos ha] at h
      rcases ih acc h with h' | h'
      · exact Or.inl h'
      · exact Or.inr (List.mem_cons_of_mem _ h')
    · rw [if_neg ha] at h
      rcases ih _ h with h' | h'
      · rcases List.mem_append.mp h' with h'' | h''
        · exact Or.inl h''
        · simp only [List.mem_singleton] at h''
          exact Or.inr (by simp [h''])
      · exact Or.inr (List.mem_cons_of_mem _ h')

/-- `keysInOrder` never repeats a key. -/
theorem keysInOrder_nodup (l : List α) : (keysInOrder l).Nodup :=
  keysInOrder_go_nodup l [] (by simp)

/-- Every element of the list appears among its keys. -/
theorem mem_keysInOrder_of_mem {l : List α} {x : α} (h : x ∈ l) :
    x ∈ keysInOrder l :=
  keysInOrder_go_mem l [] x h

/-- Keys come from the list. -/
theorem mem_of_mem_keysInOrder {l : List α} {x : α} (h : x ∈ keysInOrder l) :
    x ∈ l := by
  rcases keysInOrder_go_subset l [] x h with h' | h'
  · simp at h'
  · exact h'

end KeysInOrder

section Partition

variable {α κ M : Type _} [BEq κ] [LawfulBEq κ] [AddCommMonoid M]

theorem sum_map_ite_of_not_mem (keys : List κ) (k₀ : κ) (c : M)
    (h : k₀ ∉ keys) :
    (keys.map (fun k => if k₀ == k then c else 0)).sum = 0 := by
  induction keys with
  | nil => simp
  | cons a t ih =>
    have hne : ¬(k₀ == a) = true := by
      simp only [beq_iff_eq]
      rintro rfl
      exact h (by simp)
    have ht : k₀ ∉ t := fun hx => h (List.mem_cons_of_mem _ hx)
    simp [hne, ih ht]

theorem sum_map_ite_single (keys : List κ) (k₀ : κ) (c : M)
    (hnd : keys.Nodup) (hk : k₀ ∈ keys) :
    (keys.map (fun k => if k₀ == k then c else 0)).sum = c := by
  induction keys with
  | nil => simp at hk
  | cons a t ih =>
    rcases List.mem_cons.mp hk with rfl | hk'
    · have hnot : k₀ ∉ t := (List.nodup_cons.mp hnd).1
      simp [sum_map_ite_of_not_mem t k₀ c hnot]
    · have hne : ¬(k₀ == a) = true := by
        simp only [beq_iff_eq]
        rintro rfl
        exact (List.nodup_cons.mp hnd).1 hk'
      simp [hne, ih (List.nodup_cons.mp hnd).2 hk']

/-- Summing a quantity bucket-by-bucket over a duplicate-free, complete family
of keys gives the total over the whole list: the partition identity behind
the time-series and channel aggregations. -/
theorem sum_map_filter_partition (key : α → κ) (f : α → M)
    (keys : List κ) (l : List α)
    (hnd : keys.Nodup) (hmem : ∀ r ∈ l, key r ∈ keys) :
    (keys.map (fun k => ((l.filter (fun r => key r == k)).map f).sum)).sum
      = (l.map f).sum := by
  induction l with
  | nil => simp
  | cons r t ih =>
    have hr : key r ∈ keys := hmem r (by simp)
    have ht : ∀ x ∈ t, key x ∈ keys := fun x hx =>
      hmem x (List.mem_cons_of_mem _ hx)
    have hsplit :
        (keys.map (fun k =>
            (((r :: t).filter (fun x => key x == k)).map f).sum))
          = keys.map (fun k =>
              (if key r == k then f r else 0)
                + ((t.filter (fun x => key x == k)).map f).sum) := by
      refine List.map_congr_left (fun k _ => ?_)
      by_cases h : (key r == k) = true
      · simp [List.filter_cons, h]
      · simp [List.filter_cons, h]
    rw [hsplit, List.sum_map_add, sum_map_ite_single keys (key r) (f r) hnd hr,
      ih ht]
    simp

end Partition

/-- `l.length` as a sum of ones, to route order counts through the
partition identity. -/
theorem length_eq_sum_ones {α : Type _} (l : List α) :
    (l.map (fun _ => (1 : ℕ))).sum = l.length := by
  induction l with
  | nil => simp
  | cons a t ih => simp [ih, Nat.add_comm]

/-! ## Data model (`prisma/schema.prisma`, fields selected by
`backend/src/routes/analytics.ts`)

Timestamps are embedded at calendar-day granularity: `createdDay` is the
day index of `createdAt`, and a resolved window is the inclusive day range
`[startDay, endDay]` (the route day-aligns `start`/`end` before querying,
so `createdAt BETWEEN start AND end` is exactly `startDay ≤ createdDay ≤
endDay`). -/

inductive OrderStatus
  | PENDING | SCHEDULED | OUT_FOR_DELIVERY | DELIVERED | CANCELLED
deriving DecidableEq, Repr

inductive InvoiceStatus
  | PENDING | PAID | OVERDUE | CANCELLED
deriving DecidableEq, Repr

structure OrderRow where
  id : String
  createdDay : Int
  status : OrderStatus
  customerId : String
  routeCode : Option String
  orderNumber : Int
deriving DecidableEq, Repr

structure InvoiceRow where
  id : String
  createdDay : Int
  total : Int
  customerId : String
  orderId : Option String
  status : InvoiceStatus
deriving DecidableEq, Repr

structure OrderItemRow where
  quantity : Int
  unitPrice : Int
  productId : String
  orderId : String
deriving DecidableEq, Repr

structure ProductRow where
  id : String
  name : String
  sku : Option String
deriving DecidableEq, Repr

structure CustomerRow where
  id : String
  name : String
deriving DecidableEq, Repr

/-- The tables read by the analytics route. -/
structure AnalyticsDb where
  orders : List OrderRow
  invoices : List InvoiceRow
  orderItems : List OrderItemRow
  products : List ProductRow
  customers : List CustomerRow
deriving DecidableEq, Repr

/-! ## Analytics aggregator (`buildAnalytics`, analytics.ts lines 63-252) -/

/-- `INVOICE_STATUSES_FOR_REVENUE = ['PAID', 'PENDING', 'OVERDUE']`. -/
def revenueStatuses : List InvoiceStatus :=
  [.PAID, .PENDING, .OVERDUE]

/-- `createdAt: { gte: startJS, lte: endJS }` at day granularity. -/
def inWindow (s e d : Int) : Bool :=
  decide (s ≤ d) && decide (d ≤ e)

/-- `prisma.order.findMany({ where: { createdAt: { gte, lte } } })`. -/
def windowOrders (db : AnalyticsDb) (s e : Int) : List OrderRow :=
  db.orders.filter (fun o => inWindow s e o.createdDay)

/-- `prisma.invoice.findMany` filtered to the window and the
revenue-qualifying statuses. -/
def windowInvoices (db : AnalyticsDb) (s e : Int) : List InvoiceRow :=
  db.invoices.filter (fun i =>
    inWindow s e i.createdDay && revenueStatuses.contains i.status)

/-- `prisma.orderItem.findMany({ where: { order: { createdAt: {...} } } })`:
items whose parent order lies in the window. -/
def windowItems (db : AnalyticsDb) (s e : Int) : List OrderItemRow :=
  db.orderItems.filter (fun it =>
    db.orders.any (fun o => o.id == it.orderId && inWindow s e o.createdDay))

/-- Lookup standing in for `productMap.get` (the map is populated from
`prisma.product.findMany({ where: { id: { in: productIds } } })`, so for an
item's own `productId` the restriction to `productIds` is a no-op). -/
def findProduct (products : List ProductRow) (pid : String) :
    Option ProductRow :=
  products.find? (fun p => p.id == pid)

/-- `customerMap.get`, populated from the distinct `customerId`s of the
fetched orders; a lookup misses both when the id is not among the window
orders and when no Customer row exists. -/
def customerName (db : AnalyticsDb) (orders : List OrderRow) (cid : String) :
    String :=
  if orders.any (fun o => o.customerId == cid) then
    match db.customers.find? (fun c => c.id == cid) with
    | some c => c.name
    | none => "Customer"
  else "Customer"

/-- `revenueSum = invoices.reduce((s, r) => s + Number(r.total ?? 0), 0)`. -/
def revenueSum (db : AnalyticsDb) (s e : Int) : Int :=
  ((windowInvoices db s e).map (fun i => i.total)).sum

/-- `daysInRange = end.startOf('day').diff(start.startOf('day'),'day') + 1`. -/
def daysInRange (s e : Int) : Int := e - s + 1

/-- `prevStart = start.subtract(daysInRange, 'day')`. -/
def prevStart (s e : Int) : Int := s - daysInRange s e

/-- `prevEnd = start.subtract(1, 'day')`. -/
def prevEnd (s : Int) : Int := s - 1

/-- The `prisma.invoice.aggregate({_sum:{total}})` over the previous window,
restricted to the revenue statuses. -/
def prevRevenue (db : AnalyticsDb) (s e : Int) : Int :=
  ((db.invoices.filter (fun i =>
    inWindow (prevStart s e) (prevEnd s) i.createdDay
      && revenueStatuses.contains i.status)).map (fun i => i.total)).sum

/-- The `prisma.order.count` over the previous window. -/
def prevOrdersCount (db : AnalyticsDb) (s e : Int) : Nat :=
  (db.orders.filter (fun o =>
    inWindow (prevStart s e) (prevEnd s) o.createdDay)).length

/-- `rangeDays(start, end)`: every calendar day from the start day through
the end day (empty when the end precedes the start, as in the source's
`while (cur.isBefore(end) || cur.isSame(end,'day'))` loop). -/
def rangeDays (s e : Int) : List Int :=
  (List.range (daysInRange s e).toNat).map (fun (i : Nat) => s + (i : Int))

structure TimePoint where
  day : Int
  revenue : Int
  orders : Nat
  aov : ℚ
  customers : Nat
deriving DecidableEq, Repr

structure Kpis where
  revenue : Int
  orders : Nat
  customers : Nat
  aov : ℚ
  growthRevenuePct : ℚ
  growthOrdersPct : ℚ
  churnPct : ℚ
  conversionPct : ℚ
deriving DecidableEq, Repr

structure ProductEntry where
  name : String
  quantity : Int
  revenue : Int
deriving DecidableEq, Repr

structure CustomerEntry where
  name : String
  orders : Nat
  revenue : Int
deriving DecidableEq, Repr

structure ChannelEntry where
  channel : String
  orders : Nat
  revenue : Int
deriving DecidableEq, Repr

structure StatusEntry where
  status : OrderStatus
  count : Nat
deriving DecidableEq, Repr

structure AnalyticsResponse where
  startDay : Int
  endDay : Int
  kpis : Kpis
  timeseries : List TimePoint
  topProducts : List ProductEntry
  topCustomers : List CustomerEntry
  channels : List ChannelEntry
  ordersByStatus : List StatusEntry
deriving DecidableEq, Repr

/-- Growth vs the previous equal window:
`prev > 0 ? ((cur - prev) / prev) * 100 : 0` (analytics.ts lines 131-132).
Generic in the numeric type of the two aggregates. -/
def growthPct (cur prev : Int) : ℚ :=
  if 0 < prev then (((cur : ℚ) - (prev : ℚ)) / (prev : ℚ)) * 100 else 0

/-- The per-day time series: each day of the range is initialised to zero
and reconciled with the same-day invoices/orders (the dictionaries
`revenueByDay`/`ordersByDay`/`customersByDay`; the
`if (revenueByDay[key] !== undefined)` guard is embedded by bucketing
records only into days of the range). `if (o.customerId)` skips a falsy
(empty) customer id. -/
def timeseriesOf (db : AnalyticsDb) (s e : Int) : List TimePoint :=
  (rangeDays s e).map (fun d =>
    let dayInvoices := (windowInvoices db s e).filter
      (fun i => i.createdDay == d)
    let dayOrders := (windowOrders db s e).filter
      (fun o => o.createdDay == d)
    let revenue := (dayInvoices.map (fun i => i.total)).sum
    let ordersN := dayOrders.length
    { day := d
      revenue := revenue
      orders := ordersN
      aov := if 0 < ordersN then (revenue : ℚ) / (ordersN : ℚ) else 0
      customers := (keysInOrder ((dayOrders.filter
        (fun o => !(o.customerId == ""))).map
          (fun o => o.customerId))).length })

/-- Descending-by-revenue comparator, the JS
`(a, b) => b.revenue - a.revenue` for product entries. -/
def prodByRevenueDesc (a b : ProductEntry) : Bool :=
  decide (b.revenue ≤ a.revenue)

def custByRevenueDesc (a b : CustomerEntry) : Bool :=
  decide (b.revenue ≤ a.revenue)

def chanByOrdersDesc (a b : ChannelEntry) : Bool :=
  decide (b.orders ≤ a.orders)

def statusByCountDesc (a b : StatusEntry) : Bool :=
  decide (b.count ≤ a.count)

/-- The items that survive the `if (!prodInfo) continue` guard of the
top-products loop: items whose product row exists. -/
def itemsWithProduct (db : AnalyticsDb) (s e : Int) : List OrderItemRow :=
  (windowItems db s e).filter
    (fun it => (findProduct db.products it.productId).isSome)

/-- `prodAgg`: group the surviving items by `productId` (first-occurrence
key order, as a JS `Map`), summing `quantity` and `unitPrice * quantity`,
then sort descending by revenue and keep the first 10. -/
def topProductsOf (db : AnalyticsDb) (s e : Int) : List ProductEntry :=
  (((keysInOrder ((itemsWithProduct db s e).map
      (fun it => it.productId))).map (fun pid =>
    let pItems := (itemsWithProduct db s e).filter
      (fun it => it.productId == pid)
    { name := match findProduct db.products pid with
        | some p => p.name
        | none => ""
      quantity := (pItems.map (fun it => it.quantity)).sum
      revenue :=
        (pItems.map (fun it => it.unitPrice * it.quantity)).sum
      : ProductEntry })).mergeSort prodByRevenueDesc).take 10

/-- `invByCustomer`: window invoices grouped by customer id, skipping the
falsy (`if (!cid) continue`, i.e. empty) id. -/
def custInvoices (db : AnalyticsDb) (s e : Int) : List InvoiceRow :=
  (windowInvoices db s e).filter (fun i => !(i.customerId == ""))

/-- Top customers: revenue per customer from the qualifying window invoices,
order counts from the window orders, sorted descending by revenue, first
10 kept. -/
def topCustomersOf (db : AnalyticsDb) (s e : Int) : List CustomerEntry :=
  (((keysInOrder ((custInvoices db s e).map
      (fun i => i.customerId))).map (fun cid =>
    { name := customerName db (windowOrders db s e) cid
      orders := ((windowOrders db s e).filter
        (fun o => o.customerId == cid)).length
      revenue := (((custInvoices db s e).filter
        (fun i => i.customerId == cid)).map (fun i => i.total)).sum
      : CustomerEntry })).mergeSort custByRevenueDesc).take 10

/-- The channel key of an order:
`(o.routeCode?.trim() || 'Unassigned')`. -/
def channelOf (routeCode : Option String) : String :=
  match routeCode with
  | none => "Unassigned"
  | some s => if jsTrim s == "" then "Unassigned" else jsTrim s

/-- `revenueByOrderId.get(oid) || 0`: total of the window invoices whose
(truthy) `orderId` is this order's id. -/
def orderRevenue (db : AnalyticsDb) (s e : Int) (oid : String) : Int :=
  (((windowInvoices db s e).filter (fun i =>
    (match i.orderId with
      | none => false
      | some t => !(t == "")) && i.orderId == some oid)).map
        (fun i => i.total)).sum

/-- `channelAgg`: window orders grouped by channel key, counting orders and
joining each order's invoice revenue, sorted descending by order count. -/
def channelsOf (db : AnalyticsDb) (s e : Int) : List ChannelEntry :=
  ((keysInOrder ((windowOrders db s e).map
      (fun o => channelOf o.routeCode))).map (fun ch =>
    let chOrders := (windowOrders db s e).filter
      (fun o => channelOf o.routeCode == ch)
    { channel := ch
      orders := chOrders.length
      revenue := (chOrders.map (fun o => orderRevenue db s e o.id)).sum
      : ChannelEntry })).mergeSort chanByOrdersDesc

/-- `statusAgg`: window orders grouped by status, sorted descending by
count. -/
def ordersByStatusOf (db : AnalyticsDb) (s e : Int) : List StatusEntry :=
  ((keysInOrder ((windowOrders db s e).map (fun o => o.status))).map
    (fun st =>
      { status := st
        count := ((windowOrders db s e).filter
          (fun o => o.status == st)).length
        : StatusEntry })).mergeSort statusByCountDesc

/-- The headline KPIs (analytics.ts lines 109-132). -/
def kpisOf (db : AnalyticsDb) (s e : Int) : Kpis :=
  let ordersCount := (windowOrders db s e).length
  { revenue := revenueSum db s e
    orders := ordersCount
    customers := (keysInOrder ((windowOrders db s e).map
      (fun o => o.customerId))).length
    aov := if 0 < ordersCount then
        ((revenueSum db s e : ℚ) / (ordersCount : ℚ)) else 0
    growthRevenuePct := growthPct (revenueSum db s e) (prevRevenue db s e)
    growthOrdersPct :=
      growthPct (ordersCount : Int) (prevOrdersCount db s e : Int)
    churnPct := 0
    conversionPct := 0 }

/-- `buildAnalytics(start, end)`: the whole analytics response for a
resolved day window. -/
def buildAnalytics (db : AnalyticsDb) (s e : Int) : AnalyticsResponse :=
  { startDay := s
    endDay := e
    kpis := kpisOf db s e
    timeseries := timeseriesOf db s e
    topProducts := topProductsOf db s e
    topCustomers := topCustomersOf db s e
    channels := channelsOf db s e
    ordersByStatus := ordersByStatusOf db s e }

/-! ## Invoices (`backend/src/routes/invoices.ts`) -/

/-- A validated line item of the invoice-create body (`CreateSchema.items`:
`qty` a positive integer, `price` nonnegative). -/
structure CreateItem where
  name : String
  qty : Int
  price : Int
deriving DecidableEq, Repr

/-- The money state of an Invoice row. -/
structure InvoiceState where
  subtotal : Int
  tax : Int
  discount : Int
  total : Int
  paidAmount : Int
  balance : Int
  status : InvoiceStatus
deriving DecidableEq, Repr

/-- `POST /api/invoices` (invoices.ts lines 181-226): `subtotal` is the sum
of `qty * price`, `total = subtotal + tax - discount`, and the row is
created with `balance: total`; `paidAmount` keeps its schema default `0`
and `status` its default `PENDING`. -/
def createInvoice (items : List CreateItem) (tax discount : Int) :
    InvoiceState :=
  let subtotal := (items.map (fun i => i.qty * i.price)).sum
  let total := subtotal + tax - discount
  { subtotal := subtotal
    tax := tax
    discount := discount
    total := total
    paidAmount := 0
    balance := total
    status := .PENDING }

/-- `PUT /api/invoices/:id/status` (invoices.ts lines 229-246):
`paidAmount = body.paidAmount ?? inv.paidAmount`,
`balance = Math.max(0, total - paidAmount)`. -/
def updateInvoiceStatus (inv : InvoiceState) (newStatus : InvoiceStatus)
    (paid? : Option Int) : InvoiceState :=
  let paidAmount := paid?.getD inv.paidAmount
  { inv with
      status := newStatus
      paidAmount := paidAmount
      balance := max 0 (inv.total - paidAmount) }

/-! ## Orders (`backend/src/routes/orders.ts`)

The order-create and status-update handlers run inside
`prisma.$transaction`: the body either commits as a whole or the thrown
error leaves the database untouched.  The endpoint functions below return
the post-transaction database together with the propagated error, with the
rolled-back state equal to the input state. -/

/-- A product row as touched by the order routes. -/
structure ProductStock where
  id : String
  stock : Int
deriving DecidableEq, Repr

/-- A validated item of the order-create body (also the shape stored in
`OrderItem` rows): `quantity` a positive integer. -/
structure OrderItemRec where
  productId : String
  quantity : Int
  unitPrice : Int
deriving DecidableEq, Repr

structure StoredOrder where
  id : String
  orderNumber : Int
  status : OrderStatus
  customerId : String
  items : List OrderItemRec
deriving DecidableEq, Repr

/-- An `InventoryMovement` ledger row. -/
structure Movement where
  productId : String
  change : Int
  reason : String
  note : String
deriving DecidableEq, Repr

/-- The tables touched by the order routes. -/
structure OrdersDb where
  products : List ProductStock
  orders : List StoredOrder
  movements : List Movement
deriving DecidableEq, Repr

/-- `tx.product.update({ where: { id }, data: { stock: { increment } } })`
(a decrement is the increment of the negated quantity). -/
def updateStock (products : List ProductStock) (pid : String) (d : Int) :
    List ProductStock :=
  products.map (fun p =>
    if p.id == pid then { p with stock := p.stock + d } else p)

/-- The `sale` ledger row written for one created order item. -/
def saleMovement (orderNumber : Int) (it : OrderItemRec) : Movement :=
  { productId := it.productId
    change := -it.quantity
    reason := "sale"
    note := "order:" ++ toString orderNumber }

/-- The `cancel` ledger row written for one restocked item. -/
def cancelMovement (orderNumber : Int) (it : OrderItemRec) : Movement :=
  { productId := it.productId
    change := it.quantity
    reason := "cancel"
    note := "order:" ++ toString orderNumber }

/-- The item loop of the create transaction (orders.ts lines 132-151): for
each item, look the product up (`throw PRODUCT_NOT_FOUND` when absent),
create the `OrderItem`, decrement the stock, and append a `sale`
movement. -/
def processItems (products : List ProductStock) (movements : List Movement)
    (orderNumber : Int) :
    List OrderItemRec → Except String (List ProductStock × List Movement)
  | [] => .ok (products, movements)
  | it :: rest =>
    match products.find? (fun p => p.id == it.productId) with
    | none => .error "PRODUCT_NOT_FOUND"
    | some _ =>
      processItems (updateStock products it.productId (-it.quantity))
        (movements ++ [saleMovement orderNumber it]) orderNumber rest

/-- The order row created by the transaction (with its items as later
returned by the `include`). -/
def mkStoredOrder (oid : String) (orderNumber : Int) (customerId : String)
    (status? : Option OrderStatus) (items : List OrderItemRec) :
    StoredOrder :=
  { id := oid
    orderNumber := orderNumber
    status := status?.getD .PENDING
    customerId := customerId
    items := items }

/-- The create transaction body: on success the order, its items, the stock
decrements and the `sale` movements are all present in the result. -/
def createOrderTx (db : OrdersDb) (oid : String) (orderNumber : Int)
    (customerId : String) (items : List OrderItemRec)
    (status? : Option OrderStatus) : Except String OrdersDb :=
  match processItems db.products db.movements orderNumber items with
  | .error e => .error e
  | .ok (ps, ms) =>
    .ok { products := ps
          orders := db.orders ++
            [mkStoredOrder oid orderNumber customerId status? items]
          movements := ms }

/-- `POST /api/orders` (orders.ts lines 109-165): `prisma.$transaction`
commits the transaction result, or rolls every write back and propagates
the error. -/
def createOrderEndpoint (db : OrdersDb) (oid : String) (orderNumber : Int)
    (customerId : String) (items : List OrderItemRec)
    (status? : Option OrderStatus) : OrdersDb × Option String :=
  match createOrderTx db oid orderNumber customerId items status? with
  | .ok db' => (db', none)
  | .error e => (db, some e)

/-- The restock loop of the cancel branch (orders.ts lines 205-212):
increment each item's stock and append a `cancel` movement. -/
def restockItems (products : List ProductStock) (movements : List Movement)
    (orderNumber : Int) :
    List OrderItemRec → List ProductStock × List Movement
  | [] => (products, movements)
  | it :: rest =>
    restockItems (updateStock products it.productId it.quantity)
      (movements ++ [cancelMovement orderNumber it]) orderNumber rest

/-- The status-update transaction body (orders.ts lines 191-221): find the
order (`throw ORDER_NOT_FOUND` when absent); when moving to `CANCELLED`
from a non-`CANCELLED` status, restock every item; finally write the new
status. -/
def setOrderStatusTx (db : OrdersDb) (oid : String) (next : OrderStatus) :
    Except String OrdersDb :=
  match db.orders.find? (fun o => o.id == oid) with
  | none => .error "ORDER_NOT_FOUND"
  | some existing =>
    let pm :=
      if next == .CANCELLED && !(existing.status == .CANCELLED) then
        restockItems db.products db.movements existing.orderNumber
          existing.items
      else (db.products, db.movements)
    .ok { products := pm.1
          orders := db.orders.map (fun o =>
            if o.id == oid then { o with status := next } else o)
          movements := pm.2 }

/-- `PUT /api/orders/:id/status`, with the `$transaction`
commit-or-rollback semantics. -/
def setOrderStatusEndpoint (db : OrdersDb) (oid : String)
    (next : OrderStatus) : OrdersDb × Option String :=
  match setOrderStatusTx db oid next with
  | .ok db' => (db', none)
  | .error e => (db, some e)

/-! ## PDF rendering (`backend/src/services/pdf.ts`) -/

/-- The outcomes of the awaited puppeteer calls inside one
`renderInvoicePDF` run: each may resolve or reject. -/
structure PdfEnv where
  launch : Except String Unit
  newPage : Except String Unit
  setContent : Except String Unit
  emulateMediaType : Except String Unit
  pdf : Except String (List Nat)
deriving Repr

/-- Whether the browser process spawned by this run was launched and
whether it was closed. -/
structure BrowserState where
  launched : Bool
  closed : Bool
deriving DecidableEq, Repr

/-- The `try` body (pdf.ts lines 30-40): `newPage`, `setContent`,
`emulateMediaType`, `page.pdf`, each rejection aborting the rest. -/
def pdfBody (env : PdfEnv) : Except String (List Nat) :=
  match env.newPage with
  | .error e => .error e
  | .ok _ =>
    match env.setContent with
    | .error e => .error e
    | .ok _ =>
      match env.emulateMediaType with
      | .error e => .error e
      | .ok _ => env.pdf

/-- JS `try { body } finally { fin }` for a non-throwing `fin`: the body
runs to its return or throw, then `fin` runs on the resulting state either
way, and the body's outcome is propagated. -/
def jsTryFinally {s a e : Type _} (body : s → s × Except e a) (fin : s → s)
    (st : s) : s × Except e a :=
  ((fin (body st).1), (body st).2)

/-- `await browser.close()`. -/
def browserClose (st : BrowserState) : BrowserState :=
  { st with closed := true }

/-- `renderInvoicePDF` (pdf.ts lines 5-44): launch the browser (a rejected
launch spawns nothing), then run the rendering body under
`try ... finally await browser.close()`. The returned state records the
fate of the spawned browser process alongside the buffer-or-error
outcome. -/
def renderInvoicePDF (env : PdfEnv) :
    BrowserState × Except String (List Nat) :=
  match env.launch with
  | .error e => ({ launched := false, closed := false }, .error e)
  | .ok _ =>
    jsTryFinally (fun st => (st, pdfBody env)) browserClose
      { launched := true, closed := false }

/-! ## Range resolver (`resolveRange`, analytics.ts lines 18-49)

A dayjs value is embedded as `Option Ts`: `some` a day index plus a
time-of-day, or `none` for an Invalid Date (`dayjs` of an unparseable
string), which every dayjs operation propagates.  `dayjs()` (now) is always
valid.  `startOf('year')` needs the calendar position of Jan 1 of the
current year; it is abstracted as the `yearStart` day-index parameter. -/

/-- A valid dayjs timestamp: calendar day plus time of day in
milliseconds. -/
structure Ts where
  day : Int
  tod : Nat
deriving DecidableEq, Repr

/-- An embedded dayjs value (`none` = Invalid Date). -/
abbrev DayjsVal := Option Ts

/-- `.subtract(n, 'day')`. -/
def subDays (t : Ts) (n : Int) : Ts := { t with day := t.day - n }

/-- `.startOf('day')`. -/
def startOfDay (t : Ts) : Ts := { t with tod := 0 }

/-- The last millisecond of a day, `dayjs().endOf('day')`'s time of day. -/
def endOfDayTod : Nat := 86399999

/-- `.endOf('day')`. -/
def endOfDay (t : Ts) : Ts := { t with tod := endOfDayTod }

/-- The query/body input of the route: `from`/`to` absent or parsed
(`some none` = a provided string that does not parse), plus the preset
token. -/
structure RangeInput where
  fromD : Option DayjsVal
  toD : Option DayjsVal
  preset : Option String
deriving DecidableEq, Repr

/-- The four preset tokens with a dedicated `case` arm; a JS `switch` on a
string dispatches by equality, so anything else — `custom`, garbage, or a
missing preset — reaches the `default` arm. -/
def recognisedPreset (p : Option String) : Bool :=
  p == some "last_7" || p == some "last_30" || p == some "last_90"
    || p == some "ytd"

/-- `resolveRange(input)`: switch on the preset (anything unrecognised,
including `custom` or a missing preset, falls to the default branch of
provided dates or a 30-day-back window), then day-align both ends. -/
def resolveRange (now : Ts) (yearStart : Int) (input : RangeInput) :
    DayjsVal × DayjsVal :=
  let se : DayjsVal × DayjsVal :=
    if input.preset == some "last_7" then (some (subDays now 6), some now)
    else if input.preset == some "last_30" then
      (some (subDays now 29), some now)
    else if input.preset == some "last_90" then
      (some (subDays now 89), some now)
    else if input.preset == some "ytd" then
      (some { day := yearStart, tod := 0 }, some now)
    else
      let e := input.toD.getD (some now)
      let s := input.fromD.getD (e.map (fun t => subDays t 30))
      (s, e)
  (se.1.map startOfDay, se.2.map endOfDay)

/-! ## C1: period-over-period growth percentages -/

/-- A database with one qualifying invoice (total 1000) and two orders on
day 12, and nothing in the preceding 7-day window: the spec's own
`last_7` growth example. -/
def growthExampleDb : AnalyticsDb :=
  { orders :=
      [ { id := "o1", createdDay := 12, status := .DELIVERED,
          customerId := "c1", routeCode := none, orderNumber := 1 },
        { id := "o2", createdDay := 12, status := .DELIVERED,
          customerId := "c1", routeCode := none, orderNumber := 2 } ]
    invoices :=
      [ { id := "i1", createdDay := 12, total := 1000,
          customerId := "c1", orderId := some "o1", status := .PAID } ]
    orderItems := []
    products := []
    customers := [] }

/-- C1, counterexample: on a 7-day window (days 7..13) holding revenue 1000
with a zero prior window, `buildAnalytics` reports `growthRevenuePct = 0`,
not the claimed `100`. -/
theorem growthRevenuePct_zero_prior_not_100 :
    (buildAnalytics growthExampleDb 7 13).kpis.revenue = 1000 ∧
    prevRevenue growthExampleDb 7 13 = 0 ∧
    (buildAnalytics growthExampleDb 7 13).kpis.growthRevenuePct = 0 ∧
    (buildAnalytics growthExampleDb 7 13).kpis.growthRevenuePct ≠ 100 := by
  refine ⟨by decide, by decide, by decide, by decide⟩

/-- C1, amended: both growth percentages are `((cur - prev) / prev) * 100`
when the previous-period value is positive and `0` otherwise — in
particular `0`, not `100`, when the previous period is zero and the current
period is positive. -/
theorem growthPct_of_buildAnalytics (db : AnalyticsDb) (s e : Int) :
    ((buildAnalytics db s e).kpis.growthRevenuePct =
      if 0 < prevRevenue db s e then
        (((revenueSum db s e : ℚ) - (prevRevenue db s e : ℚ))
          / (prevRevenue db s e : ℚ)) * 100
      else 0) ∧
    ((buildAnalytics db s e).kpis.growthOrdersPct =
      if 0 < prevOrdersCount db s e then
        ((((windowOrders db s e).length : ℚ) - (prevOrdersCount db s e : ℚ))
          / (prevOrdersCount db s e : ℚ)) * 100
      else 0) := by
  constructor
  · rfl
  · show growthPct ((windowOrders db s e).length : Int)
      (prevOrdersCount db s e : Int) = _
    rw [growthPct]
    rcases Nat.eq_zero_or_pos (prevOrdersCount db s e) with h | h
    · simp [h]
    · have h' : (0 : Int) < (prevOrdersCount db s e : Int) := by
        exact_mod_cast h
      simp [h, h']

/-! ## C2: invoice balance invariant -/

/-- C2, counterexample: `POST /api/invoices` with one item (qty 1, price
10) and discount 20 — a body the validation schema accepts — creates an
invoice with `total = -10`, `paidAmount = 0` and `balance = -10`, while
`max(0, total - paidAmount) = 0`: the clamped invariant fails on a freshly
created invoice. -/
theorem createInvoice_balance_not_clamped :
    (createInvoice [{ name := "bottle", qty := 1, price := 10 }] 0 20).total
        = -10 ∧
    (createInvoice [{ name := "bottle", qty := 1, price := 10 }] 0
        20).paidAmount = 0 ∧
    (createInvoice [{ name := "bottle", qty := 1, price := 10 }] 0
        20).balance = -10 ∧
    (createInvoice [{ name := "bottle", qty := 1, price := 10 }] 0
        20).balance ≠
      max 0 ((createInvoice [{ name := "bottle", qty := 1, price := 10 }] 0
        20).total -
        (createInvoice [{ name := "bottle", qty := 1, price := 10 }] 0
          20).paidAmount) := by
  refine ⟨by decide, by decide, by decide, by decide⟩

/-- C2, amended: after any status update the invariant
`balance = max(0, total - paidAmount)` holds; a freshly created invoice
instead has `paidAmount = 0` and `balance = total` unclamped, so the
clamped invariant holds at creation exactly when `total` is nonnegative
(and fails when the discount exceeds `subtotal + tax`). -/
theorem invoice_balance_invariant (inv : InvoiceState)
    (newStatus : InvoiceStatus) (paid? : Option Int)
    (items : List CreateItem) (tax discount : Int) :
    ((updateInvoiceStatus inv newStatus paid?).balance =
      max 0 ((updateInvoiceStatus inv newStatus paid?).total -
        (updateInvoiceStatus inv newStatus paid?).paidAmount)) ∧
    (createInvoice items tax discount).paidAmount = 0 ∧
    (createInvoice items tax discount).balance =
      (createInvoice items tax discount).total := by
  exact ⟨rfl, rfl, rfl⟩

/-! ## C3: time series reconciles with the KPIs -/

theorem mem_rangeDays {s e d : Int} :
    d ∈ rangeDays s e ↔ s ≤ d ∧ d ≤ e := by
  rw [rangeDays]
  constructor
  · intro h
    rcases List.mem_map.mp h with ⟨i, hi, hd⟩
    have hi' : i < (daysInRange s e).toNat := List.mem_range.mp hi
    rw [daysInRange] at hi'
    omega
  · rintro ⟨h1, h2⟩
    refine List.mem_map.mpr ⟨(d - s).toNat, List.mem_range.mpr ?_, ?_⟩
    · rw [daysInRange]
      omega
    · omega

theorem rangeDays_nodup (s e : Int) : (rangeDays s e).Nodup := by
  rw [rangeDays]
  refine List.Nodup.map ?_ (List.nodup_range _)
  intro a b h
  have h' : s + (a : Int) = s + (b : Int) := h
  omega

theorem createdDay_mem_rangeDays_of_mem_windowInvoices
    {db : AnalyticsDb} {s e : Int} {i : InvoiceRow}
    (h : i ∈ windowInvoices db s e) : i.createdDay ∈ rangeDays s e := by
  have h2 := (List.mem_filter.mp h).2
  have h3 := (Bool.and_eq_true _ _).mp h2
  have h4 : inWindow s e i.createdDay = true := h3.1
  rw [inWindow, Bool.and_eq_true, decide_eq_true_eq, decide_eq_true_eq] at h4
  exact mem_rangeDays.mpr h4

theorem createdDay_mem_rangeDays_of_mem_windowOrders
    {db : AnalyticsDb} {s e : Int} {o : OrderRow}
    (h : o ∈ windowOrders db s e) : o.createdDay ∈ rangeDays s e := by
  have h2 := (List.mem_filter.mp h).2
  rw [inWindow, Bool.and_eq_true, decide_eq_true_eq, decide_eq_true_eq] at h2
  exact mem_rangeDays.mpr h2

/-- C3: for every window and database, the per-day time series reconciles
with the headline KPIs: the daily revenues sum to `kpis.revenue` (itself
the sum of the qualifying invoice totals) and the daily order counts sum
to `kpis.orders` (itself the number of fetched orders). -/
theorem timeseries_sums_match_kpis (db : AnalyticsDb) (s e : Int) :
    (((buildAnalytics db s e).timeseries.map (fun tp => tp.revenue)).sum =
      (buildAnalytics db s e).kpis.revenue) ∧
    (((buildAnalytics db s e).timeseries.map (fun tp => tp.orders)).sum =
      (buildAnalytics db s e).kpis.orders) ∧
    (buildAnalytics db s e).kpis.revenue = revenueSum db s e ∧
    (buildAnalytics db s e).kpis.orders = (windowOrders db s e).length := by
  refine ⟨?_, ?_, rfl, rfl⟩
  · show ((timeseriesOf db s e).map (fun tp => tp.revenue)).sum
      = revenueSum db s e
    rw [timeseriesOf, List.map_map]
    exact sum_map_filter_partition (fun i => i.createdDay)
      (fun i => i.total) (rangeDays s e) (windowInvoices db s e)
      (rangeDays_nodup s e)
      (fun r hr => createdDay_mem_rangeDays_of_mem_windowInvoices hr)
  · show ((timeseriesOf db s e).map (fun tp => tp.orders)).sum
      = (windowOrders db s e).length
    rw [timeseriesOf, List.map_map]
    have hstep :
        ((rangeDays s e).map ((fun tp => tp.orders) ∘ (fun d =>
          let dayInvoices := (windowInvoices db s e).filter
            (fun i => i.createdDay == d)
          let dayOrders := (windowOrders db s e).filter
            (fun o => o.createdDay == d)
          let revenue := (dayInvoices.map (fun i => i.total)).sum
          let ordersN := dayOrders.length
          ({ day := d
             revenue := revenue
             orders := ordersN
             aov := if 0 < ordersN then (revenue : ℚ) / (ordersN : ℚ)
               else 0
             customers := (keysInOrder ((dayOrders.filter
               (fun o => !(o.customerId == ""))).map
                 (fun o => o.customerId))).length } : TimePoint))))
        = (rangeDays s e).map (fun d =>
            (((windowOrders db s e).filter
              (fun o => o.createdDay == d)).map (fun _ => (1 : ℕ))).sum) := by
      refine List.map_congr_left (fun d _ => ?_)
      exact (length_eq_sum_ones _).symm
    rw [hstep, sum_map_filter_partition (fun o => o.createdDay)
      (fun _ => (1 : ℕ)) (rangeDays s e) (windowOrders db s e)
      (rangeDays_nodup s e)
      (fun r hr => createdDay_mem_rangeDays_of_mem_windowOrders hr),
      length_eq_sum_ones]

/-! ## C7: top lists sorted descending and capped at 10 -/

theorem take_mergeSort_pairwise {α : Type _} (le : α → α → Bool)
    (htrans : ∀ a b c, le a b = true → le b c = true → le a c = true)
    (htot : ∀ a b, (le a b || le b a) = true) (l : List α) (n : Nat) :
    ((l.mergeSort le).take n).Pairwise (fun a b => le a b = true) :=
  List.Pairwise.sublist (List.take_sublist n _)
    (List.sorted_mergeSort htrans htot l)

/-- C7: in every analytics response, `topProducts` and `topCustomers` are
sorted in descending order of their `revenue` field and hold at most 10
entries. -/
theorem topLists_sorted_desc_capped (db : AnalyticsDb) (s e : Int) :
    (buildAnalytics db s e).topProducts.Pairwise
      (fun a b => b.revenue ≤ a.revenue) ∧
    (buildAnalytics db s e).topProducts.length ≤ 10 ∧
    (buildAnalytics db s e).topCustomers.Pairwise
      (fun a b => b.revenue ≤ a.revenue) ∧
    (buildAnalytics db s e).topCustomers.length ≤ 10 := by
  refine ⟨?_, ?_, ?_, ?_⟩
  · show (topProductsOf db s e).Pairwise _
    rw [topProductsOf]
    refine (take_mergeSort_pairwise prodByRevenueDesc ?_ ?_ _ _).imp ?_
    · intro a b c hab hbc
      rw [prodByRevenueDesc, decide_eq_true_eq] at hab hbc ⊢
      omega
    · intro a b
      rw [Bool.or_eq_true, prodByRevenueDesc, prodByRevenueDesc,
        decide_eq_true_eq, decide_eq_true_eq]
      omega
    · intro a b h
      rwa [prodByRevenueDesc, decide_eq_true_eq] at h
  · show (topProductsOf db s e).length ≤ 10
    rw [topProductsOf]
    exact List.length_take_le 10 _
  · show (topCustomersOf db s e).Pairwise _
    rw [topCustomersOf]
    refine (take_mergeSort_pairwise custByRevenueDesc ?_ ?_ _ _).imp ?_
    · intro a b c hab hbc
      rw [custByRevenueDesc, decide_eq_true_eq] at hab hbc ⊢
      omega
    · intro a b
      rw [Bool.or_eq_true, custByRevenueDesc, custByRevenueDesc,
        decide_eq_true_eq, decide_eq_true_eq]
      omega
    · intro a b h
      rwa [custByRevenueDesc, decide_eq_true_eq] at h
  · show (topCustomersOf db s e).length ≤ 10
    rw [topCustomersOf]
    exact List.length_take_le 10 _

/-! ## C9: channel buckets partition the fetched orders -/

/-- C9: every fetched order lands in exactly one channel bucket (its
trimmed route code, `Unassigned` for a null/empty/whitespace-only route
code), so the bucket keys are pairwise distinct, every order's key has a
bucket, and the bucket order counts sum to `kpis.orders`. -/
theorem channels_partition_orders (db : AnalyticsDb) (s e : Int) :
    (((buildAnalytics db s e).channels.map (fun c => c.orders)).sum =
      (buildAnalytics db s e).kpis.orders) ∧
    ((buildAnalytics db s e).channels.map (fun c => c.channel)).Nodup ∧
    (∀ o ∈ windowOrders db s e, channelOf o.routeCode ∈
      (buildAnalytics db s e).channels.map (fun c => c.channel)) := by
  have hkey : ∀ o ∈ windowOrders db s e, channelOf o.routeCode ∈
      keysInOrder ((windowOrders db s e).map
        (fun o => channelOf o.routeCode)) := by
    intro o ho
    exact mem_keysInOrder_of_mem
      (List.mem_map_of_mem (fun o => channelOf o.routeCode) ho)
  have hperm :
      ((buildAnalytics db s e).channels.map (fun c => c.channel)).Perm
        (keysInOrder ((windowOrders db s e).map
          (fun o => channelOf o.routeCode))) := by
    show ((channelsOf db s e).map (fun c => c.channel)).Perm _
    rw [channelsOf]
    have h1 := (List.mergeSort_perm
      (((keysInOrder ((windowOrders db s e).map
        (fun o => channelOf o.routeCode))).map (fun ch =>
      let chOrders := (windowOrders db s e).filter
        (fun o => channelOf o.routeCode == ch)
      { channel := ch
        orders := chOrders.length
        revenue := (chOrders.map (fun o => orderRevenue db s e o.id)).sum
        : ChannelEntry }))) chanByOrdersDesc).map (fun c => c.channel)
    rw [List.map_map] at h1
    refine h1.trans ?_
    have h2 :
        ((keysInOrder ((windowOrders db s e).map
          (fun o => channelOf o.routeCode))).map ((fun c => c.channel) ∘
            (fun ch =>
          let chOrders := (windowOrders db s e).filter
            (fun o => channelOf o.routeCode == ch)
          ({ channel := ch
             orders := chOrders.length
             revenue :=
               (chOrders.map (fun o => orderRevenue db s e o.id)).sum
             : ChannelEntry }))))
        = (keysInOrder ((windowOrders db s e).map
            (fun o => channelOf o.routeCode))).map id := by
      exact List.map_congr_left (fun ch _ => rfl)
    rw [h2, List.map_id]
  refine ⟨?_, ?_, ?_⟩
  · show ((channelsOf db s e).map (fun c => c.orders)).sum
      = (windowOrders db s e).length
    rw [channelsOf]
    have h1 := (List.mergeSort_perm
      (((keysInOrder ((windowOrders db s e).map
        (fun o => channelOf o.routeCode))).map (fun ch =>
      let chOrders := (windowOrders db s e).filter
        (fun o => channelOf o.routeCode == ch)
      { channel := ch
        orders := chOrders.length
        revenue := (chOrders.map (fun o => orderRevenue db s e o.id)).sum
        : ChannelEntry }))) chanByOrdersDesc).map (fun c => c.orders)
    rw [List.map_map] at h1
    rw [h1.sum_eq]
    have hstep :
        ((keysInOrder ((windowOrders db s e).map
          (fun o => channelOf o.routeCode))).map ((fun c => c.orders) ∘
            (fun ch =>
          let chOrders := (windowOrders db s e).filter
            (fun o => channelOf o.routeCode == ch)
          ({ channel := ch
             orders := chOrders.length
             revenue :=
               (chOrders.map (fun o => orderRevenue db s e o.id)).sum
             : ChannelEntry }))))
        = (keysInOrder ((windowOrders db s e).map
            (fun o => channelOf o.routeCode))).map (fun ch =>
          (((windowOrders db s e).filter
            (fun o => channelOf o.routeCode == ch)).map
              (fun _ => (1 : ℕ))).sum) := by
      refine List.map_congr_left (fun ch _ => ?_)
      exact (length_eq_sum_ones _).symm
    rw [hstep]
    exact (sum_map_filter_partition (fun o => channelOf o.routeCode)
      (fun _ => (1 : ℕ))
      (keysInOrder ((windowOrders db s e).map
        (fun o => channelOf o.routeCode)))
      (windowOrders db s e) (keysInOrder_nodup _) hkey).trans
      (length_eq_sum_ones _)
  · exact hperm.nodup_iff.mpr (keysInOrder_nodup _)
  · intro o ho
    exact hperm.mem_iff.mpr (hkey o ho)

/-! ## C10: order items without a matching product are skipped -/

theorem filter_filter_filter_comm {α : Type _} (E W : α → Bool)
    (l : List α) :
    ((l.filter E).filter W).filter E = (l.filter W).filter E := by
  simp only [List.filter_filter]
  refine List.filter_congr (fun a _ => ?_)
  cases hE : E a <;> cases hW : W a <;> simp [hE, hW]

theorem topProductsOf_congr (db₁ db₂ : AnalyticsDb) (s e : Int)
    (hp : db₁.products = db₂.products)
    (hitems : itemsWithProduct db₁ s e = itemsWithProduct db₂ s e) :
    topProductsOf db₁ s e = topProductsOf db₂ s e := by
  rw [topProductsOf, topProductsOf, hitems, hp]

/-- The database with every order item whose `productId` has no Product
row removed. -/
def dropMissingItems (db : AnalyticsDb) : AnalyticsDb :=
  { orders := db.orders
    invoices := db.invoices
    orderItems := db.orderItems.filter
      (fun it => (findProduct db.products it.productId).isSome)
    products := db.products
    customers := db.customers }

/-- C10: dropping from the database every order item whose `productId` has
no Product row leaves `topProducts` unchanged (such items contribute to no
entry), and every `topProducts` entry carries the name of an existing
Product row. -/
theorem topProducts_skip_missing_products (db : AnalyticsDb) (s e : Int) :
    ((buildAnalytics (dropMissingItems db) s e).topProducts
      = (buildAnalytics db s e).topProducts) ∧
    (∀ entry ∈ (buildAnalytics db s e).topProducts,
      ∃ p ∈ db.products, entry.name = p.name) := by
  constructor
  · show topProductsOf (dropMissingItems db) s e = topProductsOf db s e
    refine topProductsOf_congr _ _ s e rfl ?_
    show ((db.orderItems.filter
        (fun it => (findProduct db.products it.productId).isSome)).filter
          (fun it => db.orders.any (fun o =>
            o.id == it.orderId && inWindow s e o.createdDay))).filter
        (fun it => (findProduct db.products it.productId).isSome)
      = itemsWithProduct db s e
    exact filter_filter_filter_comm
      (fun it => (findProduct db.products it.productId).isSome)
      (fun it => db.orders.any (fun o =>
        o.id == it.orderId && inWindow s e o.createdDay)) db.orderItems
  · intro entry hentry
    have h1 : entry ∈ ((keysInOrder ((itemsWithProduct db s e).map
        (fun it => it.productId))).map (fun pid =>
      let pItems := (itemsWithProduct db s e).filter
        (fun it => it.productId == pid)
      { name := match findProduct db.products pid with
          | some p => p.name
          | none => ""
        quantity := (pItems.map (fun it => it.quantity)).sum
        revenue :=
          (pItems.map (fun it => it.unitPrice * it.quantity)).sum
        : ProductEntry })) := by
      have h2 : entry ∈ topProductsOf db s e := hentry
      rw [topProductsOf] at h2
      exact (List.mergeSort_perm _ prodByRevenueDesc).mem_iff.mp
        (List.mem_of_mem_take h2)
    rcases List.mem_map.mp h1 with ⟨pid, hpid, hmk⟩
    have h3 : pid ∈ (itemsWithProduct db s e).map
        (fun it => it.productId) := mem_of_mem_keysInOrder hpid
    rcases List.mem_map.mp h3 with ⟨it, hit, hpid'⟩
    have hit' : it ∈ (windowItems db s e).filter
        (fun it => (findProduct db.products it.productId).isSome) := hit
    have h4 : (findProduct db.products it.productId).isSome = true :=
      (List.mem_filter.mp hit').2
    rw [hpid'] at h4
    rcases Option.isSome_iff_exists.mp h4 with ⟨p, hp⟩
    refine ⟨p, ?_, ?_⟩
    · exact List.mem_of_find?_eq_some hp
    · rw [← hmk]
      show (match findProduct db.products pid with
        | some p => p.name
        | none => "") = p.name
      rw [hp]

/-! ## C8: the headless browser is closed on every exit path -/

/-- C8: whatever each awaited puppeteer call does — the body returning the
PDF buffer, or page creation / HTML rendering / PDF generation rejecting —
`renderInvoicePDF` finishes with its browser closed exactly when one was
launched: the `finally` clause closes the spawned browser on the success
path and on every exception path alike, and a failed launch spawns
nothing. -/
theorem renderInvoicePDF_closes_browser (env : PdfEnv) :
    (renderInvoicePDF env).1.closed = (renderInvoicePDF env).1.launched := by
  rcases env with ⟨launch, np, sc, em, pdf⟩
  cases launch <;> rfl

/-! ## C5: the range resolver -/

/-- The route input with an unparseable `to` date string (`preset` and
`from` absent): `dayjs("not-a-date")` is an Invalid Date. -/
def invalidToInput : RangeInput :=
  { fromD := none, toD := some none, preset := none }

/-- C5, counterexample: with an invalid `to` string, `resolveRange` does
not return a day-aligned window and does not fall back to the 30-day
trailing window ending at now — both ends come out as Invalid Date. -/
theorem resolveRange_invalid_to_not_aligned :
    resolveRange { day := 100, tod := 12345 } 36 invalidToInput
        = (none, none) ∧
    (resolveRange { day := 100, tod := 12345 } 36 invalidToInput).2
        ≠ some (endOfDay { day := 100, tod := 12345 }) ∧
    (resolveRange { day := 100, tod := 12345 } 36 invalidToInput).1
        ≠ some { day := 100 - 30, tod := 0 } := by
  refine ⟨by decide, by decide, by decide⟩

/-- C5, amended: `resolveRange` is total (no error path) and every valid
end it returns is day-aligned (start at start-of-day, end at end-of-day):
presets `last_7`/`last_30`/`last_90` end at now and span exactly 7/30/90
calendar days, `ytd` starts at Jan 1 of the current year, and any other
preset — missing, `custom`, or unrecognised — silently falls back to the
provided dates, with now standing in for a missing `to` and a 30-day step
back from the end standing in for a missing `from` (31 calendar days
inclusive when both are missing); a provided `from`/`to` string that does
not parse makes the corresponding end of the returned window an Invalid
Date instead of raising an error or defaulting. -/
theorem resolveRange_spec (now : Ts) (yearStart : Int)
    (input : RangeInput) :
    (∀ t, (resolveRange now yearStart input).1 = some t → t.tod = 0) ∧
    (∀ t, (resolveRange now yearStart input).2 = some t →
      t.tod = endOfDayTod) ∧
    (input.preset = some "last_7" →
      resolveRange now yearStart input =
        (some { day := now.day - 6, tod := 0 },
         some { day := now.day, tod := endOfDayTod }) ∧
      daysInRange (now.day - 6) now.day = 7) ∧
    (input.preset = some "last_30" →
      resolveRange now yearStart input =
        (some { day := now.day - 29, tod := 0 },
         some { day := now.day, tod := endOfDayTod }) ∧
      daysInRange (now.day - 29) now.day = 30) ∧
    (input.preset = some "last_90" →
      resolveRange now yearStart input =
        (some { day := now.day - 89, tod := 0 },
         some { day := now.day, tod := endOfDayTod }) ∧
      daysInRange (now.day - 89) now.day = 90) ∧
    (input.preset = some "ytd" →
      resolveRange now yearStart input =
        (some { day := yearStart, tod := 0 },
         some { day := now.day, tod := endOfDayTod })) ∧
    (recognisedPreset input.preset = false →
      resolveRange now yearStart input =
        ((input.fromD.getD ((input.toD.getD (some now)).map
            (fun t => subDays t 30))).map startOfDay,
         (input.toD.getD (some now)).map endOfDay)) ∧
    (recognisedPreset input.preset = false → input.fromD = none →
      input.toD = none →
      resolveRange now yearStart input =
        (some { day := now.day - 30, tod := 0 },
         some { day := now.day, tod := endOfDayTod }) ∧
      daysInRange (now.day - 30) now.day = 31) ∧
    (∀ f t, recognisedPreset input.preset = false →
      input.fromD = some (some f) → input.toD = some (some t) →
      resolveRange now yearStart input =
        (some (startOfDay f), some (endOfDay t))) ∧
    (recognisedPreset input.preset = false → input.toD = some none →
      (resolveRange now yearStart input).2 = none) ∧
    (recognisedPreset input.preset = false → input.fromD = some none →
      (resolveRange now yearStart input).1 = none) := by
  have halignS : ∀ (o : DayjsVal) (t : Ts), o.map startOfDay = some t →
      t.tod = 0 := by
    intro o t h
    cases o with
    | none => simp at h
    | some x =>
      have hx : startOfDay x = t := by simpa using h
      rw [← hx]
      rfl
  have halignE : ∀ (o : DayjsVal) (t : Ts), o.map endOfDay = some t →
      t.tod = endOfDayTod := by
    intro o t h
    cases o with
    | none => simp at h
    | some x =>
      have hx : endOfDay x = t := by simpa using h
      rw [← hx]
      rfl
  have hdefault : recognisedPreset input.preset = false →
      resolveRange now yearStart input =
        ((input.fromD.getD ((input.toD.getD (some now)).map
            (fun t => subDays t 30))).map startOfDay,
         (input.toD.getD (some now)).map endOfDay) := by
    intro hrec
    simp only [recognisedPreset, Bool.or_eq_false_iff] at hrec
    obtain ⟨⟨⟨h1, h2⟩, h3⟩, h4⟩ := hrec
    rw [resolveRange, h1, h2, h3, h4]
    rfl
  refine ⟨?_, ?_, ?_, ?_, ?_, ?_, hdefault, ?_, ?_, ?_, ?_⟩
  · intro t h
    exact halignS _ t h
  · intro t h
    exact halignE _ t h
  · intro hp
    exact ⟨by rw [resolveRange, hp]; rfl, by rw [daysInRange]; omega⟩
  · intro hp
    exact ⟨by rw [resolveRange, hp]; rfl, by rw [daysInRange]; omega⟩
  · intro hp
    exact ⟨by rw [resolveRange, hp]; rfl, by rw [daysInRange]; omega⟩
  · intro hp
    rw [resolveRange, hp]
    rfl
  · intro hrec hf ht
    exact ⟨by rw [hdefault hrec, hf, ht]; rfl, by rw [daysInRange]; omega⟩
  · intro f t hrec hf ht
    rw [hdefault hrec, hf, ht]
    rfl
  · intro hrec ht
    rw [hdefault hrec, ht]
    rfl
  · intro hrec hf
    rw [hdefault hrec, hf]
    rfl

/-- C5, witness: a concrete `last_7` call and a concrete unrecognised
(`custom`) call falling back to the 30-day-back window, every hypothesis
discharged concretely. -/
theorem resolveRange_spec_witness :
    (resolveRange { day := 100, tod := 12345 } 36
        { fromD := none, toD := none, preset := some "last_7" } =
      (some { day := 100 - 6, tod := 0 },
       some { day := 100, tod := endOfDayTod }) ∧
     daysInRange (100 - 6) 100 = 7) ∧
    (resolveRange { day := 100, tod := 12345 } 36
        { fromD := none, toD := none, preset := some "custom" } =
      (some { day := 100 - 30, tod := 0 },
       some { day := 100, tod := endOfDayTod }) ∧
     daysInRange (100 - 30) 100 = 31) :=
  ⟨(resolveRange_spec { day := 100, tod := 12345 } 36
      { fromD := none, toD := none, preset := some "last_7" }).2.2.1 rfl,
   (resolveRange_spec { day := 100, tod := 12345 } 36
      { fromD := none, toD := none,
        preset := some "custom" }).2.2.2.2.2.2.2.1 (by decide) rfl rfl⟩

/-! ## Stock-update algebra for the order routes -/

/-- Apply a per-product stock delta pointwise. -/
def applyDelta (products : List ProductStock) (d : String → Int) :
    List ProductStock :=
  products.map (fun p => { p with stock := p.stock + d p.id })

/-- The total quantity the items of an order carry for one product. -/
def itemsQty (items : List OrderItemRec) (x : String) : Int :=
  ((items.filter (fun it => it.productId == x)).map
    (fun it => it.quantity)).sum

theorem updateStock_eq_applyDelta (products : List ProductStock)
    (pid : String) (q : Int) :
    updateStock products pid q
      = applyDelta products (fun x => if x == pid then q else 0) := by
  rw [updateStock, applyDelta]
  refine List.map_congr_left (fun p _ => ?_)
  cases h : p.id == pid <;> cases p <;> simp [h]

theorem applyDelta_applyDelta (products : List ProductStock)
    (d1 d2 : String → Int) :
    applyDelta (applyDelta products d1) d2
      = applyDelta products (fun x => d1 x + d2 x) := by
  rw [applyDelta, applyDelta, applyDelta, List.map_map]
  refine List.map_congr_left (fun p _ => ?_)
  show ({ { p with stock := p.stock + d1 p.id } with
      stock := (p.stock + d1 p.id) + d2 p.id } : ProductStock)
    = { p with stock := p.stock + (d1 p.id + d2 p.id) }
  cases p
  simp [Int.add_assoc]

theorem applyDelta_zero_fun (products : List ProductStock)
    (d : String → Int) (hd : ∀ x, d x = 0) :
    applyDelta products d = products := by
  rw [applyDelta]
  have h1 : products.map (fun p => ({ p with stock := p.stock + d p.id }
      : ProductStock)) = products.map id := by
    refine List.map_congr_left (fun p _ => ?_)
    cases p
    simp [hd]
  rw [h1, List.map_id]

theorem find?_isSome_map_id_preserving (g : ProductStock → ProductStock)
    (hg : ∀ p, (g p).id = p.id) (products : List ProductStock)
    (x : String) :
    ((products.map g).find? (fun p => p.id == x)).isSome
      = (products.find? (fun p => p.id == x)).isSome := by
  induction products with
  | nil => rfl
  | cons p t ih =>
    have hpx : ((g p).id == x) = (p.id == x) := by rw [hg p]
    cases hx : p.id == x
    · rw [List.map_cons, List.find?_cons, List.find?_cons]
      simp only [hpx, hx]
      exact ih
    · rw [List.map_cons, List.find?_cons, List.find?_cons]
      simp only [hpx, hx]
      rfl

theorem updateStock_id_preserving (pid : String) (q : Int) :
    ∀ p : ProductStock,
      ((if p.id == pid then { p with stock := p.stock + q } else p)
        : ProductStock).id = p.id := by
  intro p
  cases h : p.id == pid <;> simp [h]

theorem find?_isSome_updateStock (products : List ProductStock)
    (pid x : String) (q : Int) :
    ((updateStock products pid q).find? (fun p => p.id == x)).isSome
      = (products.find? (fun p => p.id == x)).isSome :=
  find?_isSome_map_id_preserving _ (updateStock_id_preserving pid q)
    products x

theorem find?_none_updateStock (products : List ProductStock)
    (pid x : String) (q : Int)
    (h : products.find? (fun p => p.id == x) = none) :
    (updateStock products pid q).find? (fun p => p.id == x) = none := by
  have h1 := find?_isSome_updateStock products pid x q
  rw [h] at h1
  cases h2 : (updateStock products pid q).find? (fun p => p.id == x) with
  | none => rfl
  | some p =>
    rw [h2] at h1
    simp at h1

/-! ## The item loops, characterised -/

theorem restockItems_eq (items : List OrderItemRec) :
    ∀ (products : List ProductStock) (movements : List Movement) (n : Int),
    restockItems products movements n items
      = (applyDelta products (fun x => itemsQty items x),
         movements ++ items.map (cancelMovement n)) := by
  induction items with
  | nil =>
    intro ps ms n
    rw [restockItems]
    have h0 : applyDelta ps (fun x => itemsQty [] x) = ps :=
      applyDelta_zero_fun ps _ (fun x => by rw [itemsQty]; rfl)
    rw [h0]
    simp
  | cons it rest ih =>
    intro ps ms n
    rw [restockItems, ih, updateStock_eq_applyDelta, applyDelta_applyDelta]
    simp only [Prod.mk.injEq]
    constructor
    · show applyDelta ps _ = applyDelta ps _
      congr 1
      funext x
      rw [itemsQty, itemsQty, List.filter_cons]
      cases hbe : it.productId == x
      · have hbe' : (x == it.productId) = false := by
          rw [beq_eq_false_iff_ne] at hbe ⊢
          exact fun hx => hbe hx.symm
        simp [hbe']
      · have hbe' : (x == it.productId) = true := by
          rw [beq_iff_eq] at hbe ⊢
          exact hbe.symm
        simp [hbe']
    · show (ms ++ [cancelMovement n it]) ++ rest.map (cancelMovement n)
        = ms ++ (it :: rest).map (cancelMovement n)
      rw [List.map_cons, List.append_assoc, List.singleton_append]

theorem processItems_ok (items : List OrderItemRec) :
    ∀ (products : List ProductStock) (movements : List Movement) (n : Int),
    (∀ it ∈ items,
      ((products.find? (fun p => p.id == it.productId)).isSome) = true) →
    processItems products movements n items
      = .ok (applyDelta products (fun x => -(itemsQty items x)),
             movements ++ items.map (saleMovement n)) := by
  induction items with
  | nil =>
    intro ps ms n _
    rw [processItems]
    have h0 : applyDelta ps (fun x => -(itemsQty [] x)) = ps :=
      applyDelta_zero_fun ps _ (fun x => by rw [itemsQty]; rfl)
    rw [h0]
    simp
  | cons it rest ih =>
    intro ps ms n h
    have hit := h it (by simp)
    rcases Option.isSome_iff_exists.mp hit with ⟨p, hp⟩
    rw [processItems, hp]
    have hrest : ∀ it' ∈ rest,
        (((updateStock ps it.productId (-it.quantity)).find?
          (fun p => p.id == it'.productId)).isSome) = true := by
      intro it' hit'
      rw [find?_isSome_updateStock]
      exact h it' (List.mem_cons_of_mem _ hit')
    rw [ih _ _ n hrest, updateStock_eq_applyDelta, applyDelta_applyDelta]
    have hfun : (fun x => (if x == it.productId then -it.quantity else 0)
        + -(itemsQty rest x)) = (fun x => -(itemsQty (it :: rest) x)) := by
      funext x
      rw [itemsQty, itemsQty, List.filter_cons]
      cases hbe : it.productId == x
      · have hbe' : (x == it.productId) = false := by
          rw [beq_eq_false_iff_ne] at hbe ⊢
          exact fun hx => hbe hx.symm
        simp [hbe']
      · have hbe' : (x == it.productId) = true := by
          rw [beq_iff_eq] at hbe ⊢
          exact hbe.symm
        simp [hbe']
        ring
    rw [hfun]
    have hms : (ms ++ [saleMovement n it]) ++ rest.map (saleMovement n)
        = ms ++ (it :: rest).map (saleMovement n) := by
      rw [List.map_cons, List.append_assoc, List.singleton_append]
    rw [hms]

theorem processItems_error (items : List OrderItemRec) :
    ∀ (products : List ProductStock) (movements : List Movement) (n : Int),
    (∃ it ∈ items, products.find? (fun p => p.id == it.productId) = none) →
    processItems products movements n items
      = .error "PRODUCT_NOT_FOUND" := by
  induction items with
  | nil =>
    intro ps ms n h
    simp at h
  | cons it rest ih =>
    intro ps ms n h
    cases hfind : ps.find? (fun p => p.id == it.productId) with
    | none => rw [processItems, hfind]
    | some p =>
      rcases h with ⟨it', hit', hnone⟩
      rcases List.mem_cons.mp hit' with rfl | hmem
      · rw [hfind] at hnone
        cases hnone
      · rw [processItems, hfind]
        refine ih _ _ n ⟨it', hmem, ?_⟩
        exact find?_none_updateStock ps it.productId it'.productId
          (-it.quantity) hnone

/-! ## Endpoint-level characterisations -/

theorem createOrderEndpoint_ok (db : OrdersDb) (oid : String) (n : Int)
    (cid : String) (items : List OrderItemRec)
    (status? : Option OrderStatus)
    (h : ∀ it ∈ items,
      ((db.products.find? (fun p => p.id == it.productId)).isSome) = true) :
    createOrderEndpoint db oid n cid items status? =
      ({ products := applyDelta db.products (fun x => -(itemsQty items x))
         orders := db.orders ++ [mkStoredOrder oid n cid status? items]
         movements := db.movements ++ items.map (saleMovement n) },
       none) := by
  rw [createOrderEndpoint, createOrderTx,
    processItems_ok items db.products db.movements n h]

theorem createOrderEndpoint_error (db : OrdersDb) (oid : String) (n : Int)
    (cid : String) (items : List OrderItemRec)
    (status? : Option OrderStatus)
    (h : ∃ it ∈ items,
      db.products.find? (fun p => p.id == it.productId) = none) :
    createOrderEndpoint db oid n cid items status? =
      (db, some "PRODUCT_NOT_FOUND") := by
  rw [createOrderEndpoint, createOrderTx,
    processItems_error items db.products db.movements n h]

theorem find?_append_of_none {α : Type _} (p : α → Bool) (l₁ l₂ : List α)
    (h : ∀ a ∈ l₁, p a = false) :
    (l₁ ++ l₂).find? p = l₂.find? p := by
  induction l₁ with
  | nil => rfl
  | cons a t ih =>
    rw [List.cons_append, List.find?_cons, h a (by simp)]
    exact ih (fun a ha => h a (List.mem_cons_of_mem _ ha))

theorem map_setStatus_unchanged (orders : List StoredOrder) (oid : String)
    (next : OrderStatus) (h : ∀ o ∈ orders, (o.id == oid) = false) :
    orders.map (fun o =>
      if o.id == oid then { o with status := next } else o) = orders := by
  have h1 : orders.map (fun o =>
      if o.id == oid then { o with status := next } else o)
      = orders.map id := by
    refine List.map_congr_left (fun o ho => ?_)
    rw [h o ho]
    rfl
  rw [h1, List.map_id]

theorem setOrderStatusEndpoint_of_find (db : OrdersDb) (oid : String)
    (next : OrderStatus) (o : StoredOrder)
    (hfind : db.orders.find? (fun o => o.id == oid) = some o) :
    setOrderStatusEndpoint db oid next =
      ({ products :=
           (if next == .CANCELLED && !(o.status == .CANCELLED) then
             restockItems db.products db.movements o.orderNumber o.items
           else (db.products, db.movements)).1
         orders := db.orders.map (fun x =>
           if x.id == oid then { x with status := next } else x)
         movements :=
           (if next == .CANCELLED && !(o.status == .CANCELLED) then
             restockItems db.products db.movements o.orderNumber o.items
           else (db.products, db.movements)).2 },
       none) := by
  rw [setOrderStatusEndpoint, setOrderStatusTx, hfind]

/-! ## C6: order creation is atomic -/

/-- C6: `POST /api/orders` persists everything or nothing.  When every
referenced product exists, the committed state holds the order row, its
items, every product stock decremented by the ordered quantity, and the
`sale` ledger rows, all together; when some referenced product is missing,
the transaction aborts with `PRODUCT_NOT_FOUND` and the database — stock
included — is exactly as before. -/
theorem createOrder_atomic (db : OrdersDb) (oid : String) (n : Int)
    (cid : String) (items : List OrderItemRec)
    (status? : Option OrderStatus) :
    ((∀ it ∈ items,
      ((db.products.find? (fun p => p.id == it.productId)).isSome) = true) →
      createOrderEndpoint db oid n cid items status? =
        ({ products := applyDelta db.products
             (fun x => -(itemsQty items x))
           orders := db.orders ++ [mkStoredOrder oid n cid status? items]
           movements := db.movements ++ items.map (saleMovement n) },
         none)) ∧
    ((∃ it ∈ items,
      db.products.find? (fun p => p.id == it.productId) = none) →
      createOrderEndpoint db oid n cid items status? =
        (db, some "PRODUCT_NOT_FOUND")) :=
  ⟨createOrderEndpoint_ok db oid n cid items status?,
   createOrderEndpoint_error db oid n cid items status?⟩

/-- The database of the C6 witness: two stocked products. -/
def atomicityDb : OrdersDb :=
  { products := [{ id := "p1", stock := 10 }, { id := "p2", stock := 5 }]
    orders := []
    movements := [] }

/-- C6, witness: a concrete create that commits in full, and a concrete
create referencing a missing product that leaves the database
untouched. -/
theorem createOrder_atomic_witness :
    (createOrderEndpoint atomicityDb "o1" 1 "c1"
        [{ productId := "p1", quantity := 3, unitPrice := 50 },
         { productId := "p2", quantity := 2, unitPrice := 20 }] none =
      ({ products := applyDelta atomicityDb.products (fun x =>
           -(itemsQty [{ productId := "p1", quantity := 3, unitPrice := 50 },
             { productId := "p2", quantity := 2, unitPrice := 20 }] x))
         orders := atomicityDb.orders ++ [mkStoredOrder "o1" 1 "c1" none
           [{ productId := "p1", quantity := 3, unitPrice := 50 },
            { productId := "p2", quantity := 2, unitPrice := 20 }]]
         movements := atomicityDb.movements ++
           [{ productId := "p1", quantity := 3, unitPrice := 50 },
            { productId := "p2", quantity := 2, unitPrice := 20 }].map
             (saleMovement 1) },
       none)) ∧
    (createOrderEndpoint atomicityDb "o9" 2 "c1"
        [{ productId := "missing", quantity := 1, unitPrice := 5 }] none =
      (atomicityDb, some "PRODUCT_NOT_FOUND")) :=
  ⟨(createOrder_atomic atomicityDb "o1" 1 "c1"
      [{ productId := "p1", quantity := 3, unitPrice := 50 },
       { productId := "p2", quantity := 2, unitPrice := 20 }] none).1
      (by decide),
   (createOrder_atomic atomicityDb "o9" 2 "c1"
      [{ productId := "missing", quantity := 1, unitPrice := 5 }] none).2
      ⟨{ productId := "missing", quantity := 1, unitPrice := 5 },
        by decide, by decide⟩⟩

/-! ## C4: cancelling an order restocks exactly once -/

/-- C4, amended: for an order created through `POST /api/orders` with an
initial status other than `CANCELLED` (the default is `PENDING`),
transitioning it to `CANCELLED` restores every product stock decremented
at creation by exactly the created quantities — the create-then-cancel
round trip leaves `products` unchanged — and writes one `cancel` ledger
row per item; re-cancelling the already-`CANCELLED` order changes no
product stock and writes no inventory movement.  (An order created
directly in the `CANCELLED` state is outside this guarantee: its creation
decrements stock, but the restock branch only fires on a transition from a
non-`CANCELLED` status.) -/
theorem order_create_cancel_roundtrip (db : OrdersDb) (oid : String)
    (n : Int) (cid : String) (items : List OrderItemRec)
    (status? : Option OrderStatus)
    (hprod : ∀ it ∈ items,
      ((db.products.find? (fun p => p.id == it.productId)).isSome) = true)
    (hstatus : status? ≠ some OrderStatus.CANCELLED)
    (hfresh : ∀ o ∈ db.orders, (o.id == oid) = false) :
    ∃ db₁ db₂ db₃,
      createOrderEndpoint db oid n cid items status? = (db₁, none) ∧
      setOrderStatusEndpoint db₁ oid .CANCELLED = (db₂, none) ∧
      db₂.products = db.products ∧
      db₂.movements = db₁.movements ++ items.map (cancelMovement n) ∧
      setOrderStatusEndpoint db₂ oid .CANCELLED = (db₃, none) ∧
      db₃.products = db₂.products ∧
      db₃.movements = db₂.movements := by
  have h1 := createOrderEndpoint_ok db oid n cid items status? hprod
  have hstBool :
      ((mkStoredOrder oid n cid status? items).status
        == OrderStatus.CANCELLED) = false := by
    show ((status?.getD .PENDING) == OrderStatus.CANCELLED) = false
    cases status? with
    | none => rfl
    | some s => cases s <;> first | rfl | exact absurd rfl hstatus
  have hfind₁ :
      (db.orders ++ [mkStoredOrder oid n cid status? items]).find?
        (fun o => o.id == oid)
      = some (mkStoredOrder oid n cid status? items) := by
    rw [find?_append_of_none _ _ _ hfresh]
    have hid : ((mkStoredOrder oid n cid status? items).id == oid)
        = true := by
      show (oid == oid) = true
      simp
    rw [List.find?_cons, hid]
  have hcondT : (OrderStatus.CANCELLED == OrderStatus.CANCELLED
      && !(false : Bool)) = true := rfl
  have horders₂ :
      ((db.orders ++ [mkStoredOrder oid n cid status? items]).map (fun x =>
        if x.id == oid then { x with status := OrderStatus.CANCELLED }
        else x))
      = db.orders ++ [StoredOrder.mk oid n OrderStatus.CANCELLED cid items] := by
    rw [List.map_append, map_setStatus_unchanged db.orders oid _ hfresh]
    have hid : ((mkStoredOrder oid n cid status? items).id == oid)
        = true := by
      show (oid == oid) = true
      simp
    rw [List.map_cons, List.map_nil, hid]
    rfl
  have hprodRestore :
      applyDelta (applyDelta db.products (fun x => -(itemsQty items x)))
        (fun x => itemsQty items x) = db.products := by
    rw [applyDelta_applyDelta]
    exact applyDelta_zero_fun _ _ (fun x => by omega)
  have h2 : setOrderStatusEndpoint
      { products := applyDelta db.products (fun x => -(itemsQty items x))
        orders := db.orders ++ [mkStoredOrder oid n cid status? items]
        movements := db.movements ++ items.map (saleMovement n) } oid
      .CANCELLED
      = ({ products := db.products
           orders := db.orders ++ [StoredOrder.mk oid n OrderStatus.CANCELLED cid items]
           movements := (db.movements ++ items.map (saleMovement n))
             ++ items.map (cancelMovement n) }, none) := by
    rw [setOrderStatusEndpoint_of_find _ oid .CANCELLED _ hfind₁, hstBool,
      hcondT, restockItems_eq]
    simp only [Prod.mk.injEq, OrdersDb.mk.injEq]
    refine ⟨⟨?_, ?_, ?_⟩, trivial⟩
    · show applyDelta (applyDelta db.products
        (fun x => -(itemsQty items x))) (fun x => itemsQty items x)
        = db.products
      exact hprodRestore
    · exact horders₂
    · rfl
  have hfind₂ :
      (db.orders ++ [StoredOrder.mk oid n OrderStatus.CANCELLED cid items]).find? (fun o => o.id == oid)
      = some (StoredOrder.mk oid n OrderStatus.CANCELLED cid items) := by
    rw [find?_append_of_none _ _ _ hfresh]
    have hid : ((StoredOrder.mk oid n OrderStatus.CANCELLED cid items).id == oid) = true := by
      show (oid == oid) = true
      simp
    rw [List.find?_cons, hid]
  have horders₃ :
      ((db.orders ++ [StoredOrder.mk oid n OrderStatus.CANCELLED cid items]).map (fun x =>
          if x.id == oid then { x with status := OrderStatus.CANCELLED }
          else x))
      = db.orders ++ [StoredOrder.mk oid n OrderStatus.CANCELLED cid items] := by
    rw [List.map_append, map_setStatus_unchanged db.orders oid _ hfresh]
    have hid : ((StoredOrder.mk oid n OrderStatus.CANCELLED cid items).id == oid) = true := by
      show (oid == oid) = true
      simp
    rw [List.map_cons, List.map_nil, hid]
    rfl
  have h3 : setOrderStatusEndpoint
      { products := db.products
        orders := db.orders ++ [StoredOrder.mk oid n OrderStatus.CANCELLED cid items]
        movements := (db.movements ++ items.map (saleMovement n))
          ++ items.map (cancelMovement n) } oid .CANCELLED
      = ({ products := db.products
           orders := db.orders ++ [StoredOrder.mk oid n OrderStatus.CANCELLED cid items]
           movements := (db.movements ++ items.map (saleMovement n))
             ++ items.map (cancelMovement n) }, none) := by
    rw [setOrderStatusEndpoint_of_find _ oid .CANCELLED _ hfind₂, horders₃]
    rfl
  exact ⟨_, _, _, h1, h2, rfl, rfl, h3, rfl, rfl⟩

/-- The database of the C4 witness and counterexample: one product with
stock 5. -/
def roundtripDb : OrdersDb :=
  { products := [{ id := "p1", stock := 5 }]
    orders := []
    movements := [] }

/-- C4, witness: a concrete create (default status) followed by two
cancels, every hypothesis discharged concretely. -/
theorem order_create_cancel_roundtrip_witness :
    ∃ db₁ db₂ db₃,
      createOrderEndpoint roundtripDb "o1" 1 "c1"
        [{ productId := "p1", quantity := 2, unitPrice := 10 }] none
        = (db₁, none) ∧
      setOrderStatusEndpoint db₁ "o1" .CANCELLED = (db₂, none) ∧
      db₂.products = roundtripDb.products ∧
      db₂.movements = db₁.movements ++
        [{ productId := "p1", quantity := 2, unitPrice := 10 }].map
          (cancelMovement 1) ∧
      setOrderStatusEndpoint db₂ "o1" .CANCELLED = (db₃, none) ∧
      db₃.products = db₂.products ∧
      db₃.movements = db₂.movements :=
  order_create_cancel_roundtrip roundtripDb "o1" 1 "c1"
    [{ productId := "p1", quantity := 2, unitPrice := 10 }] none
    (by decide) (by decide) (by decide)

/-- C4, counterexample: `POST /api/orders` accepts an initial status, so an
order can be created directly as `CANCELLED` (stock 5 → 3); the later
`PUT /api/orders/:id/status` to `CANCELLED` sees a previous status that is
already `CANCELLED`, skips the restock, and the stock stays at 3: this
create-then-cancel round trip does not leave the product's stock
unchanged. -/
theorem create_cancelled_order_never_restocked :
    (createOrderEndpoint roundtripDb "o2" 2 "c1"
        [{ productId := "p1", quantity := 2, unitPrice := 10 }]
        (some .CANCELLED)).2 = none ∧
    (createOrderEndpoint roundtripDb "o2" 2 "c1"
        [{ productId := "p1", quantity := 2, unitPrice := 10 }]
        (some .CANCELLED)).1.products = [{ id := "p1", stock := 3 }] ∧
    (setOrderStatusEndpoint (createOrderEndpoint roundtripDb "o2" 2 "c1"
        [{ productId := "p1", quantity := 2, unitPrice := 10 }]
        (some .CANCELLED)).1 "o2" .CANCELLED).2 = none ∧
    (setOrderStatusEndpoint (createOrderEndpoint roundtripDb "o2" 2 "c1"
        [{ productId := "p1", quantity := 2, unitPrice := 10 }]
        (some .CANCELLED)).1 "o2" .CANCELLED).1.products
      = [{ id := "p1", stock := 3 }] ∧
    roundtripDb.products = [{ id := "p1", stock := 5 }] ∧
    (setOrderStatusEndpoint (createOrderEndpoint roundtripDb "o2" 2 "c1"
        [{ productId := "p1", quantity := 2, unitPrice := 10 }]
        (some .CANCELLED)).1 "o2" .CANCELLED).1.products
      ≠ roundtripDb.products := by
  refine ⟨by decide, by decide, by decide, by decide, by decide, by decide⟩

/-- The database of the C9 witness: two orders, one with a padded route
code and one with none. -/
def channelsWitnessDb : AnalyticsDb :=
  { orders :=
      [ { id := "o1", createdDay := 1, status := .PENDING,
          customerId := "c1", routeCode := some " R1 ", orderNumber := 1 },
        { id := "o2", createdDay := 2, status := .PENDING,
          customerId := "c2", routeCode := none, orderNumber := 2 } ]
    invoices := []
    orderItems := []
    products := []
    customers := [] }

/-- C9, witness: the channel sum identity on a concrete database, and the
bucket membership of a concrete fetched order, its membership hypothesis
discharged concretely. -/
theorem channels_partition_orders_witness :
    (((buildAnalytics channelsWitnessDb 0 3).channels.map
        (fun c => c.orders)).sum
      = (buildAnalytics channelsWitnessDb 0 3).kpis.orders) ∧
    channelOf (some " R1 ") ∈
      (buildAnalytics channelsWitnessDb 0 3).channels.map
        (fun c => c.channel) :=
  ⟨(channels_partition_orders channelsWitnessDb 0 3).1,
   (channels_partition_orders channelsWitnessDb 0 3).2.2
     { id := "o1", createdDay := 1, status := .PENDING,
       customerId := "c1", routeCode := some " R1 ", orderNumber := 1 }
     (by decide)⟩

theorem take_mergeSort_of_singleton {α : Type _} (le : α → α → Bool)
    (l : List α) (x : α) (h : l = [x]) :
    (l.mergeSort le).take 10 = [x] := by
  subst h
  rw [List.mergeSort_singleton]
  rfl

/-- The database of the C10 witness: one product, one order holding one
item of that product and one item of a missing product. -/
def skipWitnessDb : AnalyticsDb :=
  { orders :=
      [ { id := "o1", createdDay := 1, status := .PENDING,
          customerId := "c1", routeCode := none, orderNumber := 1 } ]
    invoices := []
    orderItems :=
      [ { quantity := 2, unitPrice := 10, productId := "p1",
          orderId := "o1" },
        { quantity := 7, unitPrice := 99, productId := "ghost",
          orderId := "o1" } ]
    products := [ { id := "p1", name := "Bottle 19L", sku := none } ]
    customers := [] }

/-- C10, witness: on a concrete database the filtered run agrees with the
raw run (the `ghost` item vanishes), and the surviving entry's membership
hypothesis is discharged concretely against the evaluated top-products
list. -/
theorem topProducts_skip_missing_witness :
    ((buildAnalytics (dropMissingItems skipWitnessDb) 0 3).topProducts
      = (buildAnalytics skipWitnessDb 0 3).topProducts) ∧
    ∃ p ∈ skipWitnessDb.products,
      ({ name := "Bottle 19L", quantity := 2, revenue := 20 }
        : ProductEntry).name = p.name := by
  have hmem : ({ name := "Bottle 19L", quantity := 2, revenue := 20 }
      : ProductEntry) ∈ (buildAnalytics skipWitnessDb 0 3).topProducts := by
    show _ ∈ topProductsOf skipWitnessDb 0 3
    rw [topProductsOf, take_mergeSort_of_singleton prodByRevenueDesc _
      ({ name := "Bottle 19L", quantity := 2, revenue := 20 }
        : ProductEntry) (by decide)]
    exact List.mem_singleton.mpr rfl
  exact ⟨(topProducts_skip_missing_products skipWitnessDb 0 3).1,
    (topProducts_skip_missing_products skipWitnessDb 0 3).2
      { name := "Bottle 19L", quantity := 2, revenue := 20 } hmem⟩

end HydroPak
